import Mathlib

/-!
Shallow embedding of the core of `ovs_p4ctl.py` (the ovs-p4ctl P4Runtime
control utility): the wire value codec, the P4Info schema index, the entry
builders, the error-status decoder and the arbitration handshake.  Python
byte strings are modelled as `List Nat` (one Nat per byte), Python text
strings as Lean `String`, exceptions as `Except String`.
-/

namespace OvsP4ctl

/- ===================== Wire value codec ===================== -/

/-- `bitwidthToBytes` — `int(math.ceil(bitwidth / 8.0))` (exact on Nat). -/
def bitwidthToBytes (bitwidth : Nat) : Nat := (bitwidth + 7) / 8

/-- Hex digits (as values < 16, most significant first) of a positive number;
`hexRep 0 = []`.  Together with `numStr` this models Python's `"%x" % n`.
The fuel argument (bounded by the number itself) keeps the recursion
structural, so the function reduces definitionally. -/
def hexRepAux : Nat → Nat → List Nat
  | _, 0 => []
  | 0, _ + 1 => []
  | fuel + 1, n + 1 => hexRepAux fuel ((n + 1) / 16) ++ [(n + 1) % 16]

def hexRep (n : Nat) : List Nat := hexRepAux n n

/-- Digit values of `"%x" % n` (Python renders 0 as "0"). -/
def numStr (n : Nat) : List Nat := if n = 0 then [0] else hexRep n

/-- Lower-case hex character for a digit value < 16 (as produced by `"%x"`). -/
def toHexChar (d : Nat) : Char :=
  if d < 10 then Char.ofNat (48 + d) else Char.ofNat (87 + d)

/-- Value of a hex character, `none` for a non-hex character. -/
def hexVal (c : Char) : Option Nat :=
  if '0' ≤ c ∧ c ≤ '9' then some (c.toNat - 48)
  else if 'a' ≤ c ∧ c ≤ 'f' then some (c.toNat - 87)
  else if 'A' ≤ c ∧ c ≤ 'F' then some (c.toNat - 55)
  else none

/-- `codecs.decode(s, "hex_codec")`: pairs of hex characters to bytes;
fails on an odd-length input or a non-hex character (as `binascii` does). -/
def hexDecode : List Char → Except String (List Nat)
  | [] => .ok []
  | [_] => .error "Odd-length string"
  | a :: b :: rest =>
    match hexVal a, hexVal b with
    | some x, some y => (hexDecode rest).map (fun bs => (16 * x + y) :: bs)
    | _, _ => .error "Non-hexadecimal digit found"

/-- `encodeNum(number, bitwidth)` from ovs_p4ctl.py lines 236-242:
`"%x"`-format the number, fail if it does not fit in `bitwidth` bits,
left-pad with "0" to `byte_len * 2` characters, hex-decode. -/
def encodeNum (number bitwidth : Nat) : Except String (List Nat) :=
  let byte_len := bitwidthToBytes bitwidth
  let num_str := (numStr number).map toHexChar
  if number ≥ 2 ^ bitwidth then
    .error s!"Number, {number}, does not fit in {bitwidth} bits"
  else
    hexDecode (List.replicate (byte_len * 2 - num_str.length) '0' ++ num_str)

/-- `decodeNum(encoded_number)` lines 245-246: hex-encode the bytes and parse
with `int(_, 16)`; `int("", 16)` raises, a nonempty hex string of the bytes
has the value `foldl (256 * acc + byte)`. -/
def decodeNum (encoded : List Nat) : Except String Nat :=
  if encoded.isEmpty then .error "invalid literal for int() with base 16"
  else .ok (encoded.foldl (fun a b => 256 * a + b) 0)

/- ===================== string pattern matchers ===================== -/

/-- `str.split(sep)` on character lists (Python's `str.split` with one-char
separator; also backs the regex structure checks below). -/
def splitChar (sep : Char) : List Char → List (List Char)
  | [] => [[]]
  | c :: rest =>
    match splitChar sep rest with
    | [] => [[c]]
    | g :: gs => if c == sep then [] :: g :: gs else (c :: g) :: gs

def isHexChar (c : Char) : Bool :=
  c.isDigit || ('a' ≤ c && c ≤ 'f') || ('A' ≤ c && c ≤ 'F')

/-- Body of `mac_pattern = ^([\da-fA-F]{2}:){5}([\da-fA-F]{2})$`:
six colon-separated groups of exactly two hex characters. -/
def macCore (l : List Char) : Bool :=
  let parts := splitChar ':' l
  parts.length == 6 && parts.all (fun p => p.length == 2 && p.all isHexChar)

/-- Body of `ip_pattern = ^(\d{1,3}\.){3}(\d{1,3})$`: four dot-separated
groups of one to three decimal digits. -/
def ipCore (l : List Char) : Bool :=
  let parts := splitChar '.' l
  parts.length == 4 &&
    parts.all (fun p =>
      decide (1 ≤ p.length) && decide (p.length ≤ 3) && p.all Char.isDigit)

/-- Python's `$` anchor: the pattern body must cover the whole string, or the
whole string minus a single trailing newline. -/
def pyDollar (core : List Char → Bool) (l : List Char) : Bool :=
  core l || (l.getLast? == some '\n' && core l.dropLast)

/-- `matchesMac` lines 189-190. -/
def matchesMac (s : String) : Bool := pyDollar macCore s.data

/-- `matchesIPv4` lines 215-216. -/
def matchesIPv4 (s : String) : Bool := pyDollar ipCore s.data

/-- Python `str.isdigit` restricted to the ASCII part of its domain:
nonempty and all characters are decimal digits. -/
def pyIsdigit (s : String) : Bool := !s.data.isEmpty && s.data.all Char.isDigit

/-- Python `int()` on a decimal digit string. -/
def strToNat (s : String) : Nat := s.data.foldl (fun a c => 10 * a + (c.toNat - 48)) 0

/-- `encodeMac` lines 193-195: drop the colons, hex-decode. -/
def encodeMac (s : String) : Except String (List Nat) :=
  hexDecode (s.data.filter (fun c => c != ':'))

/-- One numeric part of `socket.inet_aton`'s dotted input: a leading zero
(with more digits following) selects octal, otherwise decimal. -/
def parseAtonPart (p : List Char) : Except String Nat :=
  if p.isEmpty then .error "illegal IP address string"
  else if p.all Char.isDigit then
    if p.head? == some '0' && decide (1 < p.length) then
      if p.all (fun c => c.toNat < 56) then
        .ok (p.foldl (fun a c => 8 * a + (c.toNat - 48)) 0)
      else .error "illegal IP address string"
    else .ok (p.foldl (fun a c => 10 * a + (c.toNat - 48)) 0)
  else .error "illegal IP address string"

/-- `encodeIPv4` lines 219-220 (`socket.inet_aton` on a four-part dotted
string; `inet_aton` tolerates a trailing newline, each part must fit a byte). -/
def encodeIPv4 (s : String) : Except String (List Nat) :=
  let l := if s.data.getLast? == some '\n' then s.data.dropLast else s.data
  match (splitChar '.' l).mapM parseAtonPart with
  | .ok [a, b, c, d] =>
    if decide (a ≤ 255) && decide (b ≤ 255) && decide (c ≤ 255) && decide (d ≤ 255) then
      .ok [a, b, c, d]
    else .error "illegal IP address string"
  | _ => .error "illegal IP address string"

/- ===================== encode (lines 249-270) ===================== -/

/-- A Python value reaching `encode`: a text string, an int, or a list/tuple. -/
inductive PyVal where
  | str (s : String)
  | num (n : Nat)
  | tuple (xs : List PyVal)

/-- The value `encode` produces: a byte string, or (for an unrecognized text
string) the original `str` passed through unchanged. -/
inductive Encoded where
  | bytes (bs : List Nat)
  | rawStr (s : String)
deriving DecidableEq

/-- Python `len` of the encoded value (bytes count bytes, str counts chars). -/
def encodedLen : Encoded → Nat
  | .bytes bs => bs.length
  | .rawStr s => s.length

/-- `encode(x, bitwidth)`: unwrap a 1-element list/tuple, infer the kind of
the value (MAC / IPv4 / decimal string / opaque string / int), dispatch, and
assert the resulting length equals `bitwidthToBytes bitwidth`. -/
def encode (x : PyVal) (bitwidth : Nat) : Except String Encoded :=
  let byte_len := bitwidthToBytes bitwidth
  let x' := match x with
    | .tuple [y] => y
    | other => other
  let encRes : Except String Encoded :=
    match x' with
    | .str s =>
      if matchesMac s then (encodeMac s).map .bytes
      else if matchesIPv4 s then (encodeIPv4 s).map .bytes
      else if pyIsdigit s then (encodeNum (strToNat s) bitwidth).map .bytes
      else .ok (.rawStr s)
    | .num n => (encodeNum n bitwidth).map .bytes
    | .tuple _ => .error "Encoding objects of this type is not supported"
  match encRes with
  | .error e => .error e
  | .ok eb =>
    if encodedLen eb = byte_len then .ok eb
    else .error "AssertionError: len(encoded_bytes) == byte_len"

/-- Assignment of an encoded value to a protobuf `bytes` field: a `str`
that was passed through raises `TypeError` at the assignment. -/
def encodeBytes (x : PyVal) (bitwidth : Nat) : Except String (List Nat) :=
  match encode x bitwidth with
  | .ok (.bytes bs) => .ok bs
  | .ok (.rawStr _) => .error "TypeError: a bytes-like object is required"
  | .error e => .error e

/-- Python subscript `x[i]` on the values `encode` handles: tuples index
elements, strings index (1-character) substrings, ints are not subscriptable. -/
def pyIndex : PyVal → Nat → Except String PyVal
  | .tuple xs, i =>
    match xs.get? i with
    | some v => .ok v
    | none => .error "IndexError: index out of range"
  | .str s, i =>
    match s.data.get? i with
    | some c => .ok (.str (String.mk [c]))
    | none => .error "IndexError: string index out of range"
  | .num _, _ => .error "TypeError: int object is not subscriptable"

/- ===================== P4Info schema (P4InfoHelper) ===================== -/

structure Preamble where
  id : Nat
  name : String
  aliasName : String
deriving DecidableEq

inductive MatchTypeE where
  | EXACT
  | LPM
  | TERNARY
  | RANGE
  | OTHER
deriving DecidableEq

structure MatchFieldInfo where
  id : Nat
  name : String
  bitwidth : Nat
  match_type : MatchTypeE
deriving DecidableEq

structure TableInfo where
  preamble : Preamble
  match_fields : List MatchFieldInfo
deriving DecidableEq

structure ParamInfo where
  id : Nat
  name : String
  bitwidth : Nat
deriving DecidableEq

structure ActionInfo where
  preamble : Preamble
  params : List ParamInfo
deriving DecidableEq

structure ActionProfileInfo where
  preamble : Preamble
deriving DecidableEq

structure P4Info where
  tables : List TableInfo
  actions : List ActionInfo
  action_profiles : List ActionProfileInfo
deriving DecidableEq

/-- The predicate of `P4InfoHelper.get`'s scan (lines 281-288): Python's
`if name:` is truthiness, so an empty-string name falls through to the id
comparison, and `pre.id == None` is always false. -/
def preMatches (pr : Preamble) (name : Option String) (id : Option Nat) : Bool :=
  match name with
  | some s =>
    if s == "" then
      match id with
      | some i => pr.id == i
      | none => false
    else pr.name == s || pr.aliasName == s
  | none =>
    match id with
    | some i => pr.id == i
    | none => false

/-- `P4InfoHelper.get(entity_type, name, id)` lines 277-293: asserts that not
both of name/id are given, linearly scans the collection, first match wins,
`AttributeError` when nothing matches. -/
def findEntity {α : Type} (pre : α → Preamble) (objs : List α)
    (name : Option String) (id : Option Nat) : Except String α :=
  if name.isSome && id.isSome then .error "name or id must be None"
  else
    match objs.find? (fun o => preMatches (pre o) name id) with
    | some o => .ok o
    | none => .error "AttributeError: could not find entity"

def get_tables_id (p : P4Info) (name : String) : Except String Nat :=
  (findEntity TableInfo.preamble p.tables (some name) none).map (fun o => o.preamble.id)

def get_tables_name (p : P4Info) (id : Nat) : Except String String :=
  (findEntity TableInfo.preamble p.tables none (some id)).map (fun o => o.preamble.name)

def get_actions_id (p : P4Info) (name : String) : Except String Nat :=
  (findEntity ActionInfo.preamble p.actions (some name) none).map (fun o => o.preamble.id)

def get_actions_name (p : P4Info) (id : Nat) : Except String String :=
  (findEntity ActionInfo.preamble p.actions none (some id)).map (fun o => o.preamble.name)

def get_action_profiles_id (p : P4Info) (name : String) : Except String Nat :=
  (findEntity ActionProfileInfo.preamble p.action_profiles (some name) none).map
    (fun o => o.preamble.id)

def get_action_profiles_name (p : P4Info) (id : Nat) : Except String String :=
  (findEntity ActionProfileInfo.preamble p.action_profiles none (some id)).map
    (fun o => o.preamble.name)

/-- The entity kinds the spec's lookup-consistency claim ranges over. -/
inductive EntityKind where
  | tables
  | actions
  | action_profiles
deriving DecidableEq

def kindPreambles (p : P4Info) : EntityKind → List Preamble
  | .tables => p.tables.map TableInfo.preamble
  | .actions => p.actions.map ActionInfo.preamble
  | .action_profiles => p.action_profiles.map ActionProfileInfo.preamble

/-- The synthesized `get_<kind>_id` accessors (`__getattr__`, lines 307-314). -/
def get_entity_id (p : P4Info) (k : EntityKind) (name : String) : Except String Nat :=
  match k with
  | .tables => get_tables_id p name
  | .actions => get_actions_id p name
  | .action_profiles => get_action_profiles_id p name

/-- The synthesized `get_<kind>_name` accessors (`__getattr__`, lines 316-321). -/
def get_entity_name (p : P4Info) (k : EntityKind) (id : Nat) : Except String String :=
  match k with
  | .tables => get_tables_name p id
  | .actions => get_actions_name p id
  | .action_profiles => get_action_profiles_name p id

/-- The inner predicate of `get_match_field` (`if name is not None`, no
truthiness here). -/
def mfMatches (mf : MatchFieldInfo) (name : Option String) (id : Option Nat) : Bool :=
  match name with
  | some s => mf.name == s
  | none =>
    match id with
    | some i => mf.id == i
    | none => false

/-- `get_match_field(table_name, name, id)` lines 331-344: double loop over
every table whose preamble name equals `table_name` (alias not consulted) and
its match fields, first hit wins. -/
def get_match_field (p : P4Info) (table_name : String)
    (name : Option String) (id : Option Nat) : Except String MatchFieldInfo :=
  match ((p.tables.filter (fun t => t.preamble.name == table_name)).flatMap
          (fun t => t.match_fields)).find? (fun mf => mfMatches mf name id) with
  | some mf => .ok mf
  | none => .error "AttributeError: table has no such match field"

/-- `get_action_params(action_name)` lines 395-399: params of the first
action with that preamble name; Python falls off the end (returns `None`)
when no action matches. -/
def get_action_params (p : P4Info) (action_name : String) : Option (List ParamInfo) :=
  (p.actions.find? (fun a => a.preamble.name == action_name)).map (fun a => a.params)

def paramMatches (pa : ParamInfo) (name : Option String) (id : Option Nat) : Bool :=
  match name with
  | some s => pa.name == s
  | none =>
    match id with
    | some i => pa.id == i
    | none => false

/-- `get_action_param(action_name, name, id)` lines 401-415. -/
def get_action_param (p : P4Info) (action_name : String)
    (name : Option String) (id : Option Nat) : Except String ParamInfo :=
  match ((p.actions.filter (fun a => a.preamble.name == action_name)).flatMap
          (fun a => a.params)).find? (fun pa => paramMatches pa name id) with
  | some pa => .ok pa
  | none => .error "AttributeError: action has no such param"

/- ===================== wire messages ===================== -/

inductive FieldMatchVal where
  | exact (value : List Nat)
  | lpm (value : List Nat) (prefix_len : Nat)
  | ternary (value : List Nat) (mask : List Nat)
  | range (low : List Nat) (high : List Nat)
deriving DecidableEq

structure FieldMatch where
  field_id : Nat
  val : FieldMatchVal
deriving DecidableEq

structure ActionParamMsg where
  param_id : Nat
  value : List Nat
deriving DecidableEq

structure ActionMsg where
  action_id : Nat
  params : List ActionParamMsg
deriving DecidableEq

/-- The `TableAction` oneof: each assignment in `buildTableEntry` replaces
the previously populated variant. -/
inductive TableAction where
  | unset
  | direct (a : ActionMsg)
  | memberRef (member_id : Nat)
  | groupRef (group_id : Nat)
deriving DecidableEq

structure TableEntryMsg where
  table_id : Nat
  priority : Nat
  matchList : List FieldMatch
  is_default_action : Bool
  action : TableAction
deriving DecidableEq

structure MemberRefMsg where
  member_id : Nat
deriving DecidableEq

structure ActionProfileGroupMsg where
  action_profile_id : Nat
  group_id : Nat
  members : List MemberRefMsg
  max_size : Nat
deriving DecidableEq

structure ActionProfileMemberMsg where
  action_profile_id : Nat
  member_id : Nat
  action : Option ActionMsg
deriving DecidableEq

/-- `get_match_field_pb(table_name, match_field_name, value)` lines 355-378:
dispatch on the schema's match kind; LPM/TERNARY/RANGE subscript the value. -/
def get_match_field_pb (p : P4Info) (table_name match_field_name : String)
    (value : PyVal) : Except String FieldMatch :=
  match get_match_field p table_name (some match_field_name) none with
  | .error e => .error e
  | .ok mf =>
    match mf.match_type with
    | .EXACT => (encodeBytes value mf.bitwidth).map (fun bs => ⟨mf.id, .exact bs⟩)
    | .LPM =>
      match pyIndex value 0 with
      | .error e => .error e
      | .ok v0 =>
        match encodeBytes v0 mf.bitwidth with
        | .error e => .error e
        | .ok bs =>
          match pyIndex value 1 with
          | .error e => .error e
          | .ok (.num plen) => .ok ⟨mf.id, .lpm bs plen⟩
          | .ok _ => .error "TypeError: prefix_len expects an int"
    | .TERNARY =>
      match pyIndex value 0 with
      | .error e => .error e
      | .ok v0 =>
        match encodeBytes v0 mf.bitwidth with
        | .error e => .error e
        | .ok bs =>
          match pyIndex value 1 with
          | .error e => .error e
          | .ok v1 =>
            (encodeBytes v1 mf.bitwidth).map (fun ms => ⟨mf.id, .ternary bs ms⟩)
    | .RANGE =>
      match pyIndex value 0 with
      | .error e => .error e
      | .ok v0 =>
        match encodeBytes v0 mf.bitwidth with
        | .error e => .error e
        | .ok lo =>
          match pyIndex value 1 with
          | .error e => .error e
          | .ok v1 =>
            (encodeBytes v1 mf.bitwidth).map (fun hi => ⟨mf.id, .range lo hi⟩)
    | .OTHER => .error "Unsupported match type"

/-- `get_action_param_pb(action_name, param_name, value)` lines 423-428. -/
def get_action_param_pb (p : P4Info) (action_name param_name : String)
    (value : PyVal) : Except String ActionParamMsg :=
  match get_action_param p action_name (some param_name) none with
  | .error e => .error e
  | .ok pa => (encodeBytes value pa.bitwidth).map (fun bs => ⟨pa.id, bs⟩)

/-- `P4InfoHelper.buildTableEntry` lines 430-475.  `match_fields` is the
Python dict in insertion order; `if match_fields:` / `if action_name:` /
`if action_params:` are truthiness tests, `if priority is not None:` is not;
`member_id` and then `group_id` overwrite the action oneof when nonzero. -/
def buildMatchList (p : P4Info) (table_name : String)
    (match_fields : Option (List (String × PyVal))) : Except String (List FieldMatch) :=
  match match_fields with
  | some fs =>
    if fs.isEmpty then .ok []
    else fs.mapM (fun mfv => get_match_field_pb p table_name mfv.1 mfv.2)
  | none => .ok []

/-- The `if action_params:` block shared by `buildTableEntry` and
`buildActionProfileMember`: encode each param of the dict in order. -/
def buildParamList (p : P4Info) (an : String)
    (action_params : Option (List (String × PyVal))) :
    Except String (List ActionParamMsg) :=
  match action_params with
  | some ps =>
    if ps.isEmpty then .ok []
    else ps.mapM (fun fv => get_action_param_pb p an fv.1 fv.2)
  | none => .ok []

/-- The `if action_name:` block shared by `buildTableEntry` and
`buildActionProfileMember` (truthiness: an empty name populates nothing). -/
def buildDirectAction (p : P4Info) (action_name : Option String)
    (action_params : Option (List (String × PyVal))) :
    Except String (Option ActionMsg) :=
  match action_name with
  | some an =>
    if an = "" then .ok none
    else
      match get_actions_id p an with
      | .error e => .error e
      | .ok aid =>
        match buildParamList p an action_params with
        | .error e => .error e
        | .ok prms => .ok (some ⟨aid, prms⟩)
  | none => .ok none

def buildTableEntry (p : P4Info) (table_name : String)
    (match_fields : Option (List (String × PyVal)))
    (default_action : Bool) (action_name : Option String)
    (action_params : Option (List (String × PyVal)))
    (priority : Option Nat) (group_id : Nat) (member_id : Nat) :
    Except String TableEntryMsg :=
  match get_tables_id p table_name with
  | .error e => .error e
  | .ok tid =>
    let prio := match priority with
      | some pr => pr
      | none => 0
    match buildMatchList p table_name match_fields with
    | .error e => .error e
    | .ok mlist =>
      match buildDirectAction p action_name action_params with
      | .error e => .error e
      | .ok dact =>
        let act0 := match dact with
          | some a => TableAction.direct a
          | none => TableAction.unset
        let act1 := if member_id ≠ 0 then TableAction.memberRef member_id else act0
        let act2 := if group_id ≠ 0 then TableAction.groupRef group_id else act1
        .ok { table_id := tid, priority := prio, matchList := mlist,
              is_default_action := default_action, action := act2 }

/-- `buildActionProfileMember` lines 477-503. -/
def buildActionProfileMember (p : P4Info) (table_name : String) (member_id : Nat)
    (action_name : Option String) (action_params : Option (List (String × PyVal))) :
    Except String ActionProfileMemberMsg :=
  match get_action_profiles_id p table_name with
  | .error e => .error e
  | .ok pid =>
    match buildDirectAction p action_name action_params with
    | .error e => .error e
    | .ok act => .ok { action_profile_id := pid, member_id := member_id, action := act }

/-- `buildActionProfileGroup` lines 505-515: every member token that passes
`str.isdigit` contributes a member reference (in order), the rest are
silently skipped. -/
def buildActionProfileGroup (p : P4Info) (table_name : String) (group_id : Nat)
    (max_size : Nat) (members : List String) : Except String ActionProfileGroupMsg :=
  match get_action_profiles_id p table_name with
  | .error e => .error e
  | .ok pid =>
    .ok { action_profile_id := pid, group_id := group_id,
          members := members.filterMap
            (fun i => if pyIsdigit i then some ⟨strToNat i⟩ else none),
          max_size := max_size }

/- ===================== commands (zero-id guards) ===================== -/

inductive UpdateTypeE where
  | INSERT
  | MODIFY
  | DELETE
deriving DecidableEq

inductive UpdateEntity where
  | tableEntry (te : TableEntryMsg)
  | apGroup (g : ActionProfileGroupMsg)
  | apMember (m : ActionProfileMemberMsg)
deriving DecidableEq

structure UpdateMsg where
  type : UpdateTypeE
  entity : UpdateEntity
deriving DecidableEq

/-- Observable outcome of a command body after flow parsing: an early-return
warning (no entity built, nothing written), exactly one `write_update` RPC,
or a raised exception. -/
inductive CmdEffect where
  | warned (msg : String)
  | wrote (u : UpdateMsg)
  | failed (err : String)
deriving DecidableEq

/-- `p4ctl_add_group` lines 1172-1202, after `parse_profile_group`: the
members argument is the raw tokens string, which `buildActionProfileGroup`
iterates character by character. -/
def p4ctl_add_group (p : P4Info) (tbl_name : String) (group_id : Nat)
    (members : String) (max_size : Nat) : CmdEffect :=
  if group_id == 0 then .warned "Group ID 0 is un-supported."
  else
    match buildActionProfileGroup p tbl_name group_id max_size
            (members.data.map (fun c => String.mk [c])) with
    | .ok apg => .wrote ⟨.INSERT, .apGroup apg⟩
    | .error e => .failed e

/-- `p4ctl_del_group` lines 1253-1277 (builder defaults: max_size 0, no
members). -/
def p4ctl_del_group (p : P4Info) (tbl_name : String) (group_id : Nat) : CmdEffect :=
  if group_id == 0 then .warned "Group ID 0 is un-supported."
  else
    match buildActionProfileGroup p tbl_name group_id 0 [] with
    | .ok apg => .wrote ⟨.DELETE, .apGroup apg⟩
    | .error e => .failed e

/-- The dict `a.name : int(action_data[idx])` of `p4ctl_add_member`; fails
(IndexError) when there are fewer data items than declared params. -/
def buildParamsDict (ps : List ParamInfo) (data : List Nat) :
    Option (List (String × PyVal)) :=
  if ps.length ≤ data.length then
    some ((ps.zip data).map (fun pd => (pd.1.name, PyVal.num pd.2)))
  else none

/-- `p4ctl_add_member` lines 1280-1313, after `parse_profile_mem` (the parsed
action data are already ints). -/
def p4ctl_add_member (p : P4Info) (tbl_name : String) (action_name : String)
    (action_data : List Nat) (mem_id : Nat) : CmdEffect :=
  if mem_id == 0 then .warned "Member ID 0 is un-supported."
  else
    match get_action_params p action_name with
    | none => .failed "TypeError: NoneType is not iterable"
    | some ps =>
      match buildParamsDict ps action_data with
      | none => .failed "IndexError: list index out of range"
      | some dict =>
        match buildActionProfileMember p tbl_name mem_id (some action_name) (some dict) with
        | .ok apm => .wrote ⟨.INSERT, .apMember apm⟩
        | .error e => .failed e

/-- `p4ctl_del_member` lines 1316-1341. -/
def p4ctl_del_member (p : P4Info) (tbl_name : String) (member_id : Nat) : CmdEffect :=
  if member_id == 0 then .warned "Member ID 0 is un-supported."
  else
    match buildActionProfileMember p tbl_name member_id none none with
    | .ok apm => .wrote ⟨.DELETE, .apMember apm⟩
    | .error e => .failed e

/- ===================== error decoder (lines 86-125) ===================== -/

/-- A `p4.Error` record carried in one `Any` detail. -/
structure P4ErrorMsg where
  canonical_code : Nat
  message : String
deriving DecidableEq

/-- A parsed `google.rpc.Status`: its `Any` details, `none` for an entry
that does not unpack to a `p4.Error`. -/
structure StatusMsg where
  details : List (Option P4ErrorMsg)
deriving DecidableEq

def GRPC_DETAILS_KEY : String := "grpc-status-details-bin"

structure IterState where
  errors : List (Option P4ErrorMsg)
  idx : Nat
deriving DecidableEq

/-- `P4RuntimeErrorIterator.__init__` lines 87-107: find the binary details
entry in the trailing metadata (first hit wins), fail if absent, fail if the
parsed status has no details, else start at index 0. -/
def errorIteratorInit (metadata : List (String × StatusMsg)) : Except String IterState :=
  match metadata.find? (fun m => m.1 == GRPC_DETAILS_KEY) with
  | none => .error "No binary details field"
  | some m =>
    if m.2.details.length == 0 then
      .error "Binary details field has empty Any details repeated field"
    else .ok { errors := m.2.details, idx := 0 }

/-- One call to `__next__` can loop internally; `noFuel` reports that the
given number of loop iterations was not enough to produce an outcome. -/
inductive IterStep where
  | yielded (v : Nat × P4ErrorMsg) (next : IterState)
  | stopped
  | formatError (msg : String)
  | noFuel
deriving DecidableEq

/-- `P4RuntimeErrorIterator.__next__` lines 112-125, one `while` iteration
per unit of fuel.  NOTE (faithful to the source): the `canonical_code == OK`
branch executes `continue` without incrementing `self.idx`, so the loop
re-examines the same entry. -/
def errorIteratorNext : Nat → IterState → IterStep
  | 0, _ => .noFuel
  | fuel + 1, st =>
    if h : st.idx < st.errors.length then
      match st.errors.get ⟨st.idx, h⟩ with
      | none => .formatError "Cannot convert Any message to p4.Error"
      | some e =>
        if e.canonical_code == 0 then
          errorIteratorNext fuel st
        else .yielded (st.idx, e) { errors := st.errors, idx := st.idx + 1 }
    else .stopped

/- ===================== handshake (lines 562-599) ===================== -/

inductive StreamMsg where
  | arbitration (statusCode : Nat)
  | other
deriving DecidableEq

/-- `msg.HasField(type_)` for the message kinds the model distinguishes. -/
def msgHasField (m : StreamMsg) (field : String) : Bool :=
  match m with
  | .arbitration _ => field == "arbitration"
  | .other => false

/-- `get_stream_packet(type_, timeout)` lines 584-599 over the inbound-queue
items that arrive within the timeout window (`none` is the dead-stream
sentinel): drop non-matching messages, return the first match, `none` on
sentinel or timeout. -/
def get_stream_packet (type_ : String) : List (Option StreamMsg) → Option StreamMsg
  | [] => none
  | none :: _ => none
  | some m :: rest => if msgHasField m type_ then some m else get_stream_packet type_ rest

/-- `code_pb2.OK`. -/
def OK_CODE : Nat := 0

/-- The arbitration wait in `handshake` passes `timeout=2`. -/
def handshakeTimeout : Nat := 2

inductive HandshakeResult where
  | exited (code : Nat)
  | session (is_master : Bool) (warned : Bool)
deriving DecidableEq

/-- `handshake` lines 562-583 after sending the arbitration request:
no reply → `sys.exit(1)`; otherwise master iff the reply status code is OK,
and a slave session prints the read-only warning.  (The proto getter on a
message without the field would yield the default code 0; unreachable after
`get_stream_packet`'s filter.) -/
def handshake (inbound : List (Option StreamMsg)) : HandshakeResult :=
  match get_stream_packet "arbitration" inbound with
  | none => .exited 1
  | some rep =>
    let code := match rep with
      | .arbitration c => c
      | .other => 0
    .session (code == OK_CODE) (!(code == OK_CODE))

/- ===================== concrete fixtures ===================== -/

/-- A small pipeline schema: one table `t` with one 8-bit EXACT field `f`,
one action `a` with one 8-bit param `p`, one action profile `ap`. -/
def fixtureP4Info : P4Info :=
  { tables := [{ preamble := { id := 1, name := "t", aliasName := "t" },
                 match_fields := [{ id := 1, name := "f", bitwidth := 8,
                                    match_type := .EXACT }] }],
    actions := [{ preamble := { id := 10, name := "a", aliasName := "a" },
                  params := [{ id := 1, name := "p", bitwidth := 8 }] }],
    action_profiles := [{ preamble := { id := 20, name := "ap", aliasName := "ap" } }] }

/-- A schema whose single table has an alias different from its name. -/
def aliasP4Info : P4Info :=
  { tables := [{ preamble := { id := 1, name := "tbl", aliasName := "shortname" },
                 match_fields := [] }],
    actions := [], action_profiles := [] }

/- ===================== schema well-formedness ===================== -/

/-- No shared ids and no shared name/alias keys between two preambles. -/
def keysDistinct (a b : Preamble) : Bool :=
  a.id != b.id && a.name != b.name && a.name != b.aliasName &&
  a.aliasName != b.name && a.aliasName != b.aliasName

def pairwiseDistinct : List Preamble → Bool
  | [] => true
  | x :: xs => xs.all (keysDistinct x) && pairwiseDistinct xs

/-- Well-formed entity collection: pairwise distinct ids and name/alias keys,
and no empty names (an empty name is unfindable through `get`'s truthiness). -/
def wfPreambles (l : List Preamble) : Bool :=
  pairwiseDistinct l && l.all (fun pr => pr.name != "")

/- ********************* theorems ********************* -/

/-- C8: with a parsed group id (resp. member id) of 0, each of the four
add/delete commands prints the warning and returns before building a wire
entity or issuing a write; `CmdEffect.warned` is the early return, so no
`wrote` update reaches the pending write state. -/
theorem zero_group_or_member_id_rejected_before_write
    (p : P4Info) (tbl : String) (members : String) (max_size : Nat)
    (an : String) (ad : List Nat) :
    p4ctl_add_group p tbl 0 members max_size = .warned "Group ID 0 is un-supported." ∧
    p4ctl_del_group p tbl 0 = .warned "Group ID 0 is un-supported." ∧
    p4ctl_add_member p tbl an ad 0 = .warned "Member ID 0 is un-supported." ∧
    p4ctl_del_member p tbl 0 = .warned "Member ID 0 is un-supported." :=
  ⟨rfl, rfl, rfl, rfl⟩

/-- C2: the iterator is stuck on an OK record.  With a details list whose
entry has canonical code OK, `__next__` never terminates: the `continue`
branch does not advance `idx`, so no amount of loop iterations (fuel)
produces an outcome.  This contradicts the claim that OK records are
skipped and iteration yields the remaining records. -/
theorem errorIteratorNext_stuck_on_ok_record (fuel : Nat) :
    errorIteratorNext fuel
      { errors := [some { canonical_code := 0, message := "ok" }], idx := 0 } =
      .noFuel := by
  induction fuel with
  | zero => rfl
  | succ n ih => exact ih

/-- C3: if the trailing metadata has no `grpc-status-details-bin` entry, or
the status found there has an empty details list, constructing the iterator
raises `P4RuntimeErrorFormatException` (no iterator state is returned). -/
theorem errorIteratorInit_missing_or_empty_details_raises
    (metadata : List (String × StatusMsg))
    (h : metadata.find? (fun m => m.1 == GRPC_DETAILS_KEY) = none ∨
         ∃ m, metadata.find? (fun m0 => m0.1 == GRPC_DETAILS_KEY) = some m ∧
              m.2.details = []) :
    ∃ e, errorIteratorInit metadata = .error e := by
  rcases h with h | ⟨m, hm, hd⟩
  · exact ⟨"No binary details field", by unfold errorIteratorInit; rw [h]⟩
  · refine ⟨"Binary details field has empty Any details repeated field", ?_⟩
    unfold errorIteratorInit
    rw [hm]
    simp [hd]

theorem errorIteratorInit_missing_or_empty_details_raises_witness :
    ∃ e, errorIteratorInit [("other", ⟨[]⟩)] = .error e :=
  errorIteratorInit_missing_or_empty_details_raises _ (Or.inl rfl)

/-- C5: a number that does not fit in the bitwidth makes `encodeNum` raise
(no byte string is returned). -/
theorem encodeNum_overflow_raises (n bw : Nat) (h : 2 ^ bw ≤ n) :
    encodeNum n bw = .error s!"Number, {n}, does not fit in {bw} bits" := by
  have h' : n ≥ 2 ^ bw := h
  simp [encodeNum, h']

theorem encodeNum_overflow_raises_witness :
    encodeNum 256 8 = .error "Number, 256, does not fit in 8 bits" :=
  encodeNum_overflow_raises 256 8 (by norm_num)

/-- C7: the handshake enters the master session exactly when the arbitration
reply's status code is OK, enters the warned read-only slave session on any
other code, and exits the process with status 1 when no arbitration message
arrives within the (2-time-unit) window. -/
theorem handshake_master_iff_ok_or_fatal_exit (inbound : List (Option StreamMsg)) :
    handshakeTimeout = 2 ∧
    (get_stream_packet "arbitration" inbound = none →
      handshake inbound = .exited 1 ∧ (1 : Nat) ≠ 0) ∧
    (∀ c, get_stream_packet "arbitration" inbound = some (.arbitration c) →
      (c = OK_CODE → handshake inbound = .session true false) ∧
      (c ≠ OK_CODE → handshake inbound = .session false true)) := by
  refine ⟨rfl, fun h => ⟨?_, by omega⟩, fun c h => ⟨fun hc => ?_, fun hc => ?_⟩⟩
  · unfold handshake; rw [h]
  · unfold handshake; rw [h, hc]; rfl
  · unfold handshake
    rw [h]
    have hb : (c == OK_CODE) = false := beq_eq_false_iff_ne.mpr hc
    simp [hb]

theorem handshake_master_iff_ok_or_fatal_exit_witness :
    handshake [] = .exited 1 ∧
    handshake [some (.arbitration 0)] = .session true false ∧
    handshake [some (.arbitration 3)] = .session false true :=
  ⟨((handshake_master_iff_ok_or_fatal_exit []).2.1 rfl).1,
   ((handshake_master_iff_ok_or_fatal_exit [some (.arbitration 0)]).2.2 0 rfl).1 rfl,
   ((handshake_master_iff_ok_or_fatal_exit [some (.arbitration 3)]).2.2 3 rfl).2
     (by decide)⟩

/-- C10: a string matching none of the MAC / IPv4 / digit patterns is passed
through `encode` unchanged (still a `str`) when its character length equals
`bitwidthToBytes bitwidth`, and trips the length assertion otherwise. -/
theorem encode_opaque_string_passthrough_or_assert (s : String) (bitwidth : Nat)
    (hm : matchesMac s = false) (hi : matchesIPv4 s = false)
    (hd : pyIsdigit s = false) :
    (s.length = bitwidthToBytes bitwidth →
      encode (.str s) bitwidth = .ok (.rawStr s)) ∧
    (s.length ≠ bitwidthToBytes bitwidth →
      encode (.str s) bitwidth =
        .error "AssertionError: len(encoded_bytes) == byte_len") := by
  constructor <;> intro hlen <;> simp [encode, hm, hi, hd, encodedLen, hlen]

theorem encode_opaque_string_passthrough_or_assert_witness :
    encode (.str "ab") 16 = .ok (.rawStr "ab") ∧
    encode (.str "ab") 8 = .error "AssertionError: len(encoded_bytes) == byte_len" :=
  ⟨(encode_opaque_string_passthrough_or_assert "ab" 16 rfl rfl rfl).1 rfl,
   (encode_opaque_string_passthrough_or_assert "ab" 8 rfl rfl rfl).2 (by decide)⟩

theorem filterMap_digit_members (members : List String) :
    (members.filterMap
      (fun i => if pyIsdigit i then some (⟨strToNat i⟩ : MemberRefMsg) else none)).map
        MemberRefMsg.member_id
      = (members.filter pyIsdigit).map strToNat := by
  induction members with
  | nil => rfl
  | cons x xs ih =>
    cases hx : pyIsdigit x <;>
      simp [List.filterMap_cons, List.filter_cons, hx, ih]

/-- C9: the group builder keeps exactly the decimal-digit member tokens, in
input order and with their decimal values, silently dropping every other
token (the member list never causes a failure). -/
theorem buildActionProfileGroup_digit_members (p : P4Info) (tn : String)
    (gid ms : Nat) (members : List String) (apg : ActionProfileGroupMsg)
    (h : buildActionProfileGroup p tn gid ms members = .ok apg) :
    apg.members.map MemberRefMsg.member_id = (members.filter pyIsdigit).map strToNat ∧
    apg.group_id = gid ∧ apg.max_size = ms ∧
    (∀ members2 : List String, ∃ apg2,
      buildActionProfileGroup p tn gid ms members2 = .ok apg2) := by
  unfold buildActionProfileGroup at h ⊢
  cases hp : get_action_profiles_id p tn with
  | error e => rw [hp] at h; simp at h
  | ok pid =>
    rw [hp] at h
    rw [Except.ok.injEq] at h
    subst h
    exact ⟨filterMap_digit_members members, rfl, rfl, fun m2 => ⟨_, rfl⟩⟩

theorem buildActionProfileGroup_digit_members_witness :
    (⟨20, 5, [⟨1⟩, ⟨7⟩], 2⟩ : ActionProfileGroupMsg).members.map
        MemberRefMsg.member_id
      = ((["1", "x", "007", ""].filter pyIsdigit).map strToNat) ∧
    (⟨20, 5, [⟨1⟩, ⟨7⟩], 2⟩ : ActionProfileGroupMsg).group_id = 5 ∧
    (⟨20, 5, [⟨1⟩, ⟨7⟩], 2⟩ : ActionProfileGroupMsg).max_size = 2 ∧
    (∀ members2 : List String, ∃ apg2,
      buildActionProfileGroup fixtureP4Info "ap" 5 2 members2 = .ok apg2) :=
  buildActionProfileGroup_digit_members fixtureP4Info "ap" 5 2
    ["1", "x", "007", ""] _ rfl

/-- C1 counterexample: `buildTableEntry` with `default_action = true` and a
non-empty `match_fields` dict produces a table entry that has the
`is_default_action` flag set AND one populated match field — the supplied
match fields are not discarded, so the claimed "empty regardless of
match_fields" invariant fails on the code. -/
theorem buildTableEntry_defaultAction_keeps_supplied_match_fields :
    buildTableEntry fixtureP4Info "t" (some [("f", .str "7")]) true none none
        none 0 0 =
      .ok { table_id := 1, priority := 0,
            matchList := [{ field_id := 1, val := .exact [7] }],
            is_default_action := true, action := .unset } ∧
    ([{ field_id := 1, val := FieldMatchVal.exact [7] }] : List FieldMatch) ≠ [] :=
  ⟨rfl, by simp⟩

/-- C1 amended: with `default_action = true` the built entry always carries
`is_default_action`, and its match list is empty whenever the supplied
`match_fields` is absent or empty (a non-empty dict still populates it). -/
theorem buildTableEntry_defaultAction_sets_flag (p : P4Info) (table_name : String)
    (match_fields : Option (List (String × PyVal))) (action_name : Option String)
    (action_params : Option (List (String × PyVal))) (priority : Option Nat)
    (group_id member_id : Nat) (te : TableEntryMsg)
    (h : buildTableEntry p table_name match_fields true action_name action_params
          priority group_id member_id = .ok te) :
    te.is_default_action = true ∧
    ((match_fields = none ∨ match_fields = some []) → te.matchList = []) := by
  unfold buildTableEntry at h
  cases h1 : get_tables_id p table_name with
  | error e => rw [h1] at h; simp at h
  | ok tid =>
    rw [h1] at h
    cases h2 : buildMatchList p table_name match_fields with
    | error e => rw [h2] at h; simp at h
    | ok mlist =>
      rw [h2] at h
      cases h3 : buildDirectAction p action_name action_params with
      | error e => rw [h3] at h; simp at h
      | ok dact =>
        rw [h3] at h
        simp only [Except.ok.injEq] at h
        subst h
        refine ⟨rfl, fun hmf => ?_⟩
        rcases hmf with hmf | hmf <;> subst hmf <;>
          simp [buildMatchList] at h2 <;>
          simp [h2.symm]

/- ===== C4: encodeNum/decodeNum round trip ===== -/

theorem hexRepAux_congr (n : Nat) :
    ∀ f1 f2, n ≤ f1 → n ≤ f2 → hexRepAux f1 n = hexRepAux f2 n := by
  induction n using Nat.strong_induction_on with
  | _ n ih =>
    intro f1 f2 h1 h2
    cases n with
    | zero => simp [hexRepAux]
    | succ m =>
      cases f1 with
      | zero => omega
      | succ g1 =>
        cases f2 with
        | zero => omega
        | succ g2 =>
          simp only [hexRepAux]
          rw [ih ((m + 1) / 16) (by omega) g1 g2 (by omega) (by omega)]

theorem hexRep_succ (m : Nat) :
    hexRep (m + 1) = hexRep ((m + 1) / 16) ++ [(m + 1) % 16] := by
  show hexRepAux (m + 1) (m + 1) =
    hexRepAux ((m + 1) / 16) ((m + 1) / 16) ++ [(m + 1) % 16]
  simp only [hexRepAux]
  rw [hexRepAux_congr ((m + 1) / 16) m ((m + 1) / 16) (by omega) le_rfl]

theorem hexRep_mem_lt (n : Nat) : ∀ d ∈ hexRep n, d < 16 := by
  induction n using Nat.strong_induction_on with
  | _ n ih =>
    cases n with
    | zero => intro d hd; simp [hexRep, hexRepAux] at hd
    | succ m =>
      intro d hd
      rw [hexRep_succ] at hd
      rcases List.mem_append.mp hd with h | h
      · exact ih ((m + 1) / 16) (by omega) d h
      · simp at h; omega

theorem hexRep_length_le : ∀ (k n : Nat), n < 16 ^ k → (hexRep n).length ≤ k := by
  intro k
  induction k with
  | zero =>
    intro n hn
    have h0 : n = 0 := by omega
    subst h0
    simp [hexRep, hexRepAux]
  | succ k ih =>
    intro n hn
    cases n with
    | zero => simp [hexRep, hexRepAux]
    | succ m =>
      rw [hexRep_succ, List.length_append]
      have hq : (m + 1) / 16 < 16 ^ k := by
        rw [Nat.div_lt_iff_lt_mul (by norm_num : (0 : Nat) < 16)]
        calc m + 1 < 16 ^ (k + 1) := hn
          _ = 16 ^ k * 16 := by ring
      have hl := ih _ hq
      simp only [List.length_cons, List.length_nil]
      omega

theorem foldl_hex_hexRep (n : Nat) :
    ∀ a : Nat, (hexRep n).foldl (fun x d => 16 * x + d) a =
      a * 16 ^ (hexRep n).length + n := by
  induction n using Nat.strong_induction_on with
  | _ n ih =>
    cases n with
    | zero => intro a; simp [hexRep, hexRepAux]
    | succ m =>
      intro a
      rw [hexRep_succ, List.foldl_append, List.length_append]
      simp only [List.foldl_cons, List.foldl_nil, List.length_cons, List.length_nil]
      rw [ih ((m + 1) / 16) (by omega) a]
      have h2 : 16 * (a * 16 ^ (hexRep ((m + 1) / 16)).length) =
          a * 16 ^ ((hexRep ((m + 1) / 16)).length + (0 + 1)) := by ring
      have h3 : 16 * ((m + 1) / 16) + (m + 1) % 16 = m + 1 := Nat.div_add_mod (m + 1) 16
      rw [Nat.mul_add, h2]
      omega

theorem numStr_mem_lt (n : Nat) : ∀ d ∈ numStr n, d < 16 := by
  unfold numStr
  split
  · intro d hd; simp at hd; omega
  · exact hexRep_mem_lt n

theorem numStr_foldl (n : Nat) : (numStr n).foldl (fun x d => 16 * x + d) 0 = n := by
  unfold numStr
  split
  · rename_i h; simp [h]
  · simpa using foldl_hex_hexRep n 0

theorem numStr_length_le (k n : Nat) (hk : 1 ≤ k) (hn : n < 16 ^ k) :
    (numStr n).length ≤ k := by
  unfold numStr
  split
  · simpa using hk
  · exact hexRep_length_le k n hn

theorem hexVal_toHexChar : ∀ d : Nat, d < 16 → hexVal (toHexChar d) = some d := by decide

theorem hexDecode_pairs : ∀ (bound : Nat) (ds : List Nat), ds.length ≤ bound →
    (∀ d ∈ ds, d < 16) → ds.length % 2 = 0 →
    ∃ bs, hexDecode (ds.map toHexChar) = .ok bs ∧ bs.length = ds.length / 2 ∧
      ∀ a : Nat, bs.foldl (fun x b => 256 * x + b) a =
        ds.foldl (fun x d => 16 * x + d) a := by
  intro bound
  induction bound with
  | zero =>
    intro ds hlen _ _
    have h0 : ds = [] := List.eq_nil_of_length_eq_zero (by omega)
    subst h0
    exact ⟨[], rfl, rfl, fun a => rfl⟩
  | succ m ih =>
    intro ds hlen hdig heven
    rcases ds with _ | ⟨d1, _ | ⟨d2, rest⟩⟩
    · exact ⟨[], rfl, rfl, fun a => rfl⟩
    · simp at heven
    · have h1 : d1 < 16 := hdig d1 (by simp)
      have h2 : d2 < 16 := hdig d2 (by simp)
      have hre : rest.length % 2 = 0 := by
        simp only [List.length_cons] at heven
        omega
      obtain ⟨bs, hbs, hlen2, hfold⟩ :=
        ih rest (by simp only [List.length_cons] at hlen; omega)
          (fun d hd => hdig d (by simp [hd])) hre
      refine ⟨(16 * d1 + d2) :: bs, ?_, ?_, ?_⟩
      · simp [hexDecode, hexVal_toHexChar d1 h1, hexVal_toHexChar d2 h2, hbs,
          Except.map]
      · simp only [List.length_cons, hlen2]
        omega
      · intro a
        simp only [List.foldl_cons]
        rw [hfold]
        congr 1
        ring

theorem foldl_hex_zeros (k : Nat) (l : List Nat) :
    (List.replicate k 0 ++ l).foldl (fun x d => 16 * x + d) 0 =
      l.foldl (fun x d => 16 * x + d) 0 := by
  induction k with
  | zero => rfl
  | succ m ih => simpa [List.replicate_succ] using ih

/-- C4 counterexample: at bitwidth 0 the claim's hypothesis `0 ≤ n < 2^0`
holds for n = 0, yet `encodeNum 0 0` raises (the `"0"` rendered by `"%x"`
cannot be hex-decoded into 0 bytes), so no byte string is returned and the
round trip fails. -/
theorem encodeNum_bitwidth_zero_fails :
    (0 : Nat) < 2 ^ (0 : Nat) ∧ encodeNum 0 0 = .error "Odd-length string" :=
  ⟨by norm_num, rfl⟩

/-- C4 amended: for bitwidth ≥ 1 and 0 ≤ n < 2^bitwidth, `encodeNum`
returns a byte string of exactly `ceil(bitwidth/8)` bytes and `decodeNum`
recovers n. -/
theorem encodeNum_decodeNum_roundtrip (n bitwidth : Nat) (hbw : 1 ≤ bitwidth)
    (hn : n < 2 ^ bitwidth) :
    ∃ bs, encodeNum n bitwidth = .ok bs ∧ bs.length = bitwidthToBytes bitwidth ∧
      decodeNum bs = .ok n := by
  have hB1 : 1 ≤ bitwidthToBytes bitwidth := by unfold bitwidthToBytes; omega
  have hbB : bitwidth ≤ 8 * bitwidthToBytes bitwidth := by unfold bitwidthToBytes; omega
  have hpow : 2 ^ bitwidth ≤ 16 ^ (bitwidthToBytes bitwidth * 2) := by
    calc 2 ^ bitwidth ≤ 2 ^ (8 * bitwidthToBytes bitwidth) :=
          Nat.pow_le_pow_right (by norm_num) hbB
      _ = 16 ^ (bitwidthToBytes bitwidth * 2) := by
          rw [show (16 : Nat) = 2 ^ 4 from rfl, ← Nat.pow_mul]
          congr 1
          ring
  have hlenle : (numStr n).length ≤ bitwidthToBytes bitwidth * 2 :=
    numStr_length_le _ n (by omega) (lt_of_lt_of_le hn hpow)
  have hdig : ∀ d ∈ List.replicate
      (bitwidthToBytes bitwidth * 2 - (numStr n).length) 0 ++ numStr n, d < 16 := by
    intro d hd
    rcases List.mem_append.mp hd with h | h
    · rcases List.mem_replicate.mp h with ⟨-, rfl⟩; omega
    · exact numStr_mem_lt n d h
  have hplen : (List.replicate (bitwidthToBytes bitwidth * 2 - (numStr n).length) 0 ++
      numStr n).length = bitwidthToBytes bitwidth * 2 := by
    simp only [List.length_append, List.length_replicate]
    omega
  obtain ⟨bs, hdec, hbslen, hfold⟩ :=
    hexDecode_pairs _ _ le_rfl hdig (by rw [hplen]; omega)
  have hbsB : bs.length = bitwidthToBytes bitwidth := by rw [hplen] at hbslen; omega
  refine ⟨bs, ?_, hbsB, ?_⟩
  · have hmap : List.replicate
        (bitwidthToBytes bitwidth * 2 - ((numStr n).map toHexChar).length) '0' ++
          (numStr n).map toHexChar
        = (List.replicate (bitwidthToBytes bitwidth * 2 - (numStr n).length) 0 ++
            numStr n).map toHexChar := by
      rw [List.map_append, List.map_replicate, List.length_map]
      rfl
    simp only [encodeNum]
    rw [if_neg (by omega)]
    rw [hmap, hdec]
  · have hne : bs ≠ [] := by
      intro h0
      rw [h0] at hbsB
      simp at hbsB
      omega
    have hval : bs.foldl (fun x b => 256 * x + b) 0 = n := by
      rw [hfold 0, foldl_hex_zeros, numStr_foldl]
    unfold decodeNum
    rw [if_neg (by simpa [List.isEmpty_iff] using hne)]
    rw [hval]

theorem encodeNum_decodeNum_roundtrip_witness :
    ∃ bs, encodeNum 300 16 = .ok bs ∧ bs.length = bitwidthToBytes 16 ∧
      decodeNum bs = .ok 300 :=
  encodeNum_decodeNum_roundtrip 300 16 (by norm_num) (by norm_num)

/- ===== C6: schema lookup consistency ===== -/

theorem find_pre_id (l : List Preamble) (pr : Preamble) (hm : pr ∈ l)
    (hw : pairwiseDistinct l = true) :
    l.find? (fun q => preMatches q none (some pr.id)) = some pr := by
  induction l with
  | nil => cases hm
  | cons x xs ih =>
    have hw' : (∀ q ∈ xs, keysDistinct x q = true) ∧ pairwiseDistinct xs = true := by
      simpa [pairwiseDistinct, List.all_eq_true, Bool.and_eq_true] using hw
    rcases List.mem_cons.mp hm with rfl | hm'
    · exact List.find?_cons_of_pos xs (by simp [preMatches])
    · have hk := hw'.1 pr hm'
      simp only [keysDistinct, Bool.and_eq_true, bne_iff_ne] at hk
      obtain ⟨⟨⟨⟨hid, hnn⟩, hna⟩, han⟩, haa⟩ := hk
      have hfalse : ¬(preMatches x none (some pr.id) = true) := by
        simp [preMatches]
        exact hid
      rw [List.find?_cons_of_neg xs hfalse]
      exact ih hm' hw'.2

theorem find_pre_key (l : List Preamble) (pr : Preamble) (hm : pr ∈ l)
    (hw : pairwiseDistinct l = true) (s : String)
    (hs : s = pr.name ∨ s = pr.aliasName) (hne : s ≠ "") :
    l.find? (fun q => preMatches q (some s) none) = some pr := by
  induction l with
  | nil => cases hm
  | cons x xs ih =>
    have hw' : (∀ q ∈ xs, keysDistinct x q = true) ∧ pairwiseDistinct xs = true := by
      simpa [pairwiseDistinct, List.all_eq_true, Bool.and_eq_true] using hw
    have hs' : (s == "") = false := beq_eq_false_iff_ne.mpr hne
    rcases List.mem_cons.mp hm with rfl | hm'
    · refine List.find?_cons_of_pos xs ?_
      rcases hs with rfl | rfl <;> simp [preMatches, hs']
    · have hk := hw'.1 pr hm'
      simp only [keysDistinct, Bool.and_eq_true, bne_iff_ne] at hk
      obtain ⟨⟨⟨⟨hid, hnn⟩, hna⟩, han⟩, haa⟩ := hk
      have hfalse : ¬(preMatches x (some s) none = true) := by
        rcases hs with rfl | rfl <;> simp [preMatches, hs', not_or]
        · exact ⟨hnn, han⟩
        · exact ⟨hna, haa⟩
      rw [List.find?_cons_of_neg xs hfalse]
      exact ih hm' hw'.2

theorem findEntity_id_ok {α : Type} (pre : α → Preamble) (objs : List α)
    (pr : Preamble) (hw : pairwiseDistinct (objs.map pre) = true)
    (hm : pr ∈ objs.map pre) :
    ∃ o, findEntity pre objs none (some pr.id) = .ok o ∧ pre o = pr := by
  have hfind := find_pre_id (objs.map pre) pr hm hw
  rw [List.find?_map] at hfind
  obtain ⟨o, ho, hpo⟩ := Option.map_eq_some'.mp hfind
  have ho' : objs.find? (fun o => preMatches (pre o) none (some pr.id)) = some o := ho
  exact ⟨o, by simp [findEntity, ho'], hpo⟩

theorem findEntity_key_ok {α : Type} (pre : α → Preamble) (objs : List α)
    (pr : Preamble) (hw : pairwiseDistinct (objs.map pre) = true)
    (hm : pr ∈ objs.map pre) (s : String)
    (hs : s = pr.name ∨ s = pr.aliasName) (hne : s ≠ "") :
    ∃ o, findEntity pre objs (some s) none = .ok o ∧ pre o = pr := by
  have hfind := find_pre_key (objs.map pre) pr hm hw s hs hne
  rw [List.find?_map] at hfind
  obtain ⟨o, ho, hpo⟩ := Option.map_eq_some'.mp hfind
  have ho' : objs.find? (fun o => preMatches (pre o) (some s) none) = some o := ho
  exact ⟨o, by simp [findEntity, ho'], hpo⟩

theorem lookup_consistency_aux {α : Type} (pre : α → Preamble) (objs : List α)
    (pr : Preamble) (hw : wfPreambles (objs.map pre) = true)
    (hm : pr ∈ objs.map pre) :
    (findEntity pre objs none (some pr.id)).map (fun o => (pre o).name) =
      .ok pr.name ∧
    (findEntity pre objs (some pr.name) none).map (fun o => (pre o).id) =
      .ok pr.id ∧
    (pr.aliasName ≠ "" →
      (findEntity pre objs (some pr.aliasName) none).map (fun o => (pre o).id) =
        .ok pr.id) := by
  have hw' : pairwiseDistinct (objs.map pre) = true ∧
      ∀ q ∈ objs.map pre, q.name ≠ "" := by
    simpa [wfPreambles, List.all_eq_true, Bool.and_eq_true, bne_iff_ne] using hw
  have hname : pr.name ≠ "" := hw'.2 pr hm
  obtain ⟨o1, ho1, hp1⟩ := findEntity_id_ok pre objs pr hw'.1 hm
  obtain ⟨o2, ho2, hp2⟩ := findEntity_key_ok pre objs pr hw'.1 hm pr.name
    (Or.inl rfl) hname
  refine ⟨?_, ?_, fun hal => ?_⟩
  · rw [ho1]; simp [Except.map, hp1]
  · rw [ho2]; simp [Except.map, hp2]
  · obtain ⟨o3, ho3, hp3⟩ := findEntity_key_ok pre objs pr hw'.1 hm pr.aliasName
      (Or.inr rfl) hal
    rw [ho3]; simp [Except.map, hp3]

/-- C6 counterexample: looking an entity up by its alias and mapping the
resulting id back through `get_name` yields the canonical name, not the
alias: `get_name(kind, get_id(kind, alias)) ≠ alias` whenever they differ,
refuting the claim for names that are aliases. -/
theorem get_entity_name_of_alias_lookup_mismatch :
    get_entity_id aliasP4Info .tables "shortname" = .ok 1 ∧
    get_entity_name aliasP4Info .tables 1 = .ok "tbl" ∧
    "tbl" ≠ "shortname" :=
  ⟨rfl, rfl, by decide⟩

/-- C6 amended: in a well-formed schema (pairwise distinct ids and
name/alias keys, nonempty names) every entity of every kind satisfies
`get_name(get_id(name)) = name` for its canonical name,
`get_id(get_name(id)) = id`, and an alias lookup resolves to the same id as
the canonical name — but `get_name` then returns the canonical name, not
the alias. -/
theorem schema_lookup_consistency (p : P4Info) (k : EntityKind)
    (hwf : wfPreambles (kindPreambles p k) = true) :
    ∀ pr ∈ kindPreambles p k,
      get_entity_name p k pr.id = .ok pr.name ∧
      get_entity_id p k pr.name = .ok pr.id ∧
      (pr.aliasName ≠ "" → get_entity_id p k pr.aliasName = .ok pr.id) := by
  intro pr hm
  cases k with
  | tables => exact lookup_consistency_aux TableInfo.preamble p.tables pr hwf hm
  | actions => exact lookup_consistency_aux ActionInfo.preamble p.actions pr hwf hm
  | action_profiles =>
    exact lookup_consistency_aux ActionProfileInfo.preamble p.action_profiles pr hwf hm

theorem schema_lookup_consistency_witness :
    get_entity_name fixtureP4Info .tables 1 = .ok "t" ∧
    get_entity_id fixtureP4Info .tables "t" = .ok 1 :=
  ⟨(schema_lookup_consistency fixtureP4Info .tables rfl ⟨1, "t", "t"⟩
      (by simp [kindPreambles, fixtureP4Info])).1,
   (schema_lookup_consistency fixtureP4Info .tables rfl ⟨1, "t", "t"⟩
      (by simp [kindPreambles, fixtureP4Info])).2.1⟩

theorem buildTableEntry_defaultAction_sets_flag_witness :
    (⟨1, 0, [], true, .unset⟩ : TableEntryMsg).is_default_action = true ∧
    ((none = (none : Option (List (String × PyVal))) ∨
        (none : Option (List (String × PyVal))) = some []) →
      (⟨1, 0, [], true, .unset⟩ : TableEntryMsg).matchList = []) :=
  buildTableEntry_defaultAction_sets_flag fixtureP4Info "t" none none none
    none 0 0 _ rfl

end OvsP4ctl
